import Mathlib

/-!
Verification of the Vietnam PIT calculator core.

This file gives a shallow embedding of the deterministic calculator engine
(`calculator-engine.ts`), the ruleset loader (`ruleset-loader.ts`) and the
catalog schema (`rules-catalog.schema.ts`), and proves properties of the
embedded definitions.

Modelling conventions:
* JavaScript numbers are modelled as exact rationals (`ℚ`); the one place
  a non-finite IEEE value is observable (the unguarded division
  `pit / grossSalary` in `grossToNet`) is modelled by `JSNum`, which keeps
  the NaN / ±Infinity outcomes of JavaScript division explicit.
* The loader compares ISO-8601 date strings lexicographically, which for
  such strings coincides with chronological order; assessment dates and
  effective windows are therefore modelled by their chronological index
  (a natural number), with `≤` playing the role of the string comparison.
* Keys, ids and scopes stay `String`s (resp. an enumeration for the closed
  scope enum) compared for equality exactly as in the source.
* Presentational strings (breakdown labels, formulas, explanations,
  factors, assumptions, citations) are not part of any claim's numeric
  content; breakdown steps keep their signed `amount` and `isDeduction`
  flag, and the residency `whatWouldChange` strings are represented by a
  constructor per distinct message, with the interpolated day deficit kept
  as a number.
-/

namespace VnPit

/-- Chronological index of an ISO-8601 date string (the loader compares
date strings lexicographically, which sorts chronologically). -/
abbrev DateIdx := Nat

/-- An entry of `constants` in the rules catalog
(`ConstantSchema`: key, value, unit, effective window). The `unit` and the
presentational fields are omitted. -/
structure Constant where
  key : String
  value : ℚ
  effective_from : DateIdx
  effective_to : Option DateIdx
deriving DecidableEq

/-- One bracket of a tax table (`TaxBracketSchema`): optional inclusive or
exclusive minimum, nullable inclusive maximum (null = unbounded top
bracket), and a rate. -/
structure TaxBracket where
  min_inclusive : Option ℚ := none
  min_exclusive : Option ℚ := none
  max_inclusive : Option ℚ
  rate : ℚ
deriving DecidableEq

/-- The closed `scope` enumeration of `TaxTableSchema`. -/
inductive TaxScope where
  | resident_employment_income
  | nonresident_employment_income
  | business_income
  | capital_gains
  | other
deriving DecidableEq

/-- A tax table (`TaxTableSchema`); `basis`, `currency` and citation
fields are presentational and omitted. -/
structure TaxTable where
  table_id : String
  scope : TaxScope
  effective_from : DateIdx
  effective_to : Option DateIdx
  brackets : List TaxBracket
deriving DecidableEq

/-- A decision rule (`DecisionRuleSchema`); only the identity and the
effective window matter to the engine (the logic text is descriptive). -/
structure DecisionRule where
  rule_id : String
  effective_from : DateIdx
  effective_to : Option DateIdx
deriving DecidableEq

/-- An exemption record (`ExemptionSchema`), identity and window only. -/
structure Exemption where
  exemption_id : String
  effective_from : DateIdx
  effective_to : Option DateIdx
deriving DecidableEq

/-- The rules catalog root (`RulesCatalogSchema`); rulesets, glossary and
validation rules are not consulted by the engine functions under study. -/
structure RulesCatalog where
  constants : List Constant
  tax_tables : List TaxTable
  decision_rules : List DecisionRule
  exemptions : List Exemption
deriving DecidableEq

/-- The effective-window test shared by every loader lookup:
`dateStr >= from && (to === null || dateStr <= to)`. -/
def isActiveOn (dateStr : DateIdx) (fromD : DateIdx) (toD : Option DateIdx) : Bool :=
  decide (fromD ≤ dateStr) &&
    (match toD with
     | none => true
     | some t => decide (dateStr ≤ t))

/-- Loader `getConstant`: value of the first constant whose key matches
and whose window contains the date (via `Array.prototype.find`). -/
def getConstant (cat : RulesCatalog) (key : String) (date : DateIdx) : Option ℚ :=
  (cat.constants.find? fun c =>
    c.key == key && isActiveOn date c.effective_from c.effective_to).map (·.value)

/-- Loader `getConstantWithMeta`: same search as `getConstant`, returning
the whole record. -/
def getConstantWithMeta (cat : RulesCatalog) (key : String) (date : DateIdx) :
    Option Constant :=
  cat.constants.find? fun c =>
    c.key == key && isActiveOn date c.effective_from c.effective_to

/-- Loader `getTaxTable`: first table with the given id active on the date. -/
def getTaxTable (cat : RulesCatalog) (tableId : String) (date : DateIdx) :
    Option TaxTable :=
  cat.tax_tables.find? fun t =>
    t.table_id == tableId && isActiveOn date t.effective_from t.effective_to

/-- Loader `getTaxTableByScope`: first table with the given scope active on
the date. -/
def getTaxTableByScope (cat : RulesCatalog) (scope : TaxScope) (date : DateIdx) :
    Option TaxTable :=
  cat.tax_tables.find? fun t =>
    decide (t.scope = scope) && isActiveOn date t.effective_from t.effective_to

/-- Loader `getDecisionRule`: first decision rule with the given id active
on the date. -/
def getDecisionRule (cat : RulesCatalog) (ruleId : String) (date : DateIdx) :
    Option DecisionRule :=
  cat.decision_rules.find? fun r =>
    r.rule_id == ruleId && isActiveOn date r.effective_from r.effective_to

/-- Loader `getExemption`: first exemption with the given id active on the
date. -/
def getExemption (cat : RulesCatalog) (exemptionId : String) (date : DateIdx) :
    Option Exemption :=
  cat.exemptions.find? fun e =>
    e.exemption_id == exemptionId && isActiveOn date e.effective_from e.effective_to

-- ==================== ENGINE TYPES ====================

/-- `ResidencyInput` of the engine; optional JS fields become `Option`s. -/
structure ResidencyInput where
  daysInTaxYear : ℚ
  daysIn12ConsecutiveMonths : Option ℚ := none
  hasPermanentResidence : Option Bool := none
  hasRentalContract183Days : Option Bool := none
deriving DecidableEq

/-- The `ResidencyStatus` union type, with all three declared variants. -/
inductive ResidencyStatus where
  | resident
  | non_resident
  | unknown
deriving DecidableEq

/-- The confidence union type of `ResidencyResult`. -/
inductive Confidence where
  | high
  | medium
  | low
deriving DecidableEq

/-- The distinct `whatWouldChange` messages the classifier can emit; the
interpolated day deficit of the non-resident branch is carried as data. -/
inductive ChangeNote where
  | cannotChangeDayTest
  | cannotChangeRollingTest
  | housingSituationChange
  | needMoreDays (deficit : ℚ)
  | registerPermanentResidence
  | signRentalContract183Days
deriving DecidableEq

/-- `ResidencyResult` (the `factors` audit strings and the citation string
are presentational and omitted). -/
structure ResidencyResult where
  status : ResidencyStatus
  confidence : Confidence
  whatWouldChange : List ChangeNote
  ruleId : String
deriving DecidableEq

/-- The two-valued residency status of `PITInput` / `GrossToNetInput`. -/
inductive TaxResidency where
  | resident
  | non_resident
deriving DecidableEq

/-- `PITInput`; the optional `assessmentDate` is passed to the calculators
as an explicit resolved date (the engine defaults it to the current date). -/
structure PITInput where
  residencyStatus : TaxResidency
  grossSalary : ℚ
  taxableAllowances : ℚ
  dependentsCount : ℚ
  insuranceContributions : ℚ
  charityDonations : Option ℚ := none
deriving DecidableEq

/-- A breakdown step, keeping the signed `amount` and the `isDeduction`
flag (label / formula / ruleId strings are presentational). -/
structure BreakdownStep where
  amount : ℚ
  isDeduction : Bool := false
deriving DecidableEq

/-- `PITResult` (assumption strings and citation list omitted). -/
structure PITResult where
  monthlyPIT : ℚ
  annualizedPIT : ℚ
  effectiveRate : ℚ
  breakdown : List BreakdownStep
deriving DecidableEq

-- ==================== RESIDENCY CLASSIFIER ====================

/-- JavaScript truthiness of an optional number
(`undefined` and `0` are falsy). -/
def truthyNum (x : Option ℚ) : Bool :=
  match x with
  | none => false
  | some d => decide (d ≠ 0)

/-- JavaScript truthiness of an optional boolean. -/
def truthyBool (b : Option Bool) : Bool := b.getD false

/-- Engine `determineResidency`, branch for branch: the 183-day test, the
12-consecutive-month rolling test (note the JS truthiness guard on the
optional day count), the housing indicators, and the non-resident default. -/
def determineResidency (cat : RulesCatalog) (date : DateIdx)
    (input : ResidencyInput) : ResidencyResult :=
  let rule := getDecisionRule cat "VN_RESIDENCY_183_DAY_TEST" date
  let threshold := (getConstant cat "RESIDENCY_DAYS_THRESHOLD" date).getD 183
  let ruleId := (rule.map (·.rule_id)).getD "VN_RESIDENCY_183_DAY_TEST"
  if threshold ≤ input.daysInTaxYear then
    { status := .resident, confidence := .high,
      whatWouldChange := [.cannotChangeDayTest], ruleId := ruleId }
  else if truthyNum input.daysIn12ConsecutiveMonths &&
      decide (threshold ≤ (input.daysIn12ConsecutiveMonths.getD 0)) then
    { status := .resident, confidence := .high,
      whatWouldChange := [.cannotChangeRollingTest], ruleId := ruleId }
  else if truthyBool input.hasPermanentResidence ||
      truthyBool input.hasRentalContract183Days then
    { status := .resident, confidence := .medium,
      whatWouldChange := [.housingSituationChange], ruleId := ruleId }
  else
    { status := .non_resident,
      confidence := if input.daysInTaxYear < 150 then .high else .medium,
      whatWouldChange :=
        [.needMoreDays (threshold - input.daysInTaxYear),
         .registerPermanentResidence, .signRentalContract183Days],
      ruleId := ruleId }

-- ==================== PROGRESSIVE TAX EVALUATOR ====================

/-- The bracket lower bound used by the evaluator:
`bracket.min_inclusive ?? bracket.min_exclusive ?? 0`. -/
def bracketMin (b : TaxBracket) : ℚ :=
  b.min_inclusive.getD (b.min_exclusive.getD 0)

/-- Amount taxed in one bracket for a given remaining income:
`Math.min(remaining, (max_inclusive ?? Infinity) - bracketMin)`; a null
maximum makes the width infinite, so the minimum is the remaining income
itself. -/
def taxableInBracket (b : TaxBracket) (remaining : ℚ) : ℚ :=
  match b.max_inclusive with
  | none => remaining
  | some mx => min remaining (mx - bracketMin b)

/-- The bracket loop of `calculateProgressiveTax`: stop when remaining
income is ≤ 0 or brackets are exhausted; in each bracket tax
`taxableInBracket` at the bracket rate, emitting a breakdown step and a
tax contribution only when the taxed amount is positive. -/
def progressiveSteps : ℚ → List TaxBracket → ℚ × List BreakdownStep
  | _, [] => (0, [])
  | remaining, b :: bs =>
    if remaining ≤ 0 then (0, [])
    else
      let taxable := taxableInBracket b remaining
      let rest := progressiveSteps (remaining - taxable) bs
      if 0 < taxable then
        (taxable * b.rate + rest.1, ⟨taxable * b.rate, false⟩ :: rest.2)
      else
        (rest.1, rest.2)

/-- Engine `calculateProgressiveTax`: fold the table's brackets over the
assessable income, returning the total tax and the per-bracket breakdown. -/
def calculateProgressiveTax (assessableIncome : ℚ) (table : TaxTable) :
    ℚ × List BreakdownStep :=
  progressiveSteps assessableIncome table.brackets

-- ==================== RESIDENT PIT CALCULATOR ====================

/-- The taxpayer family deduction `calculateResidentPIT` uses:
`getConstant('FAMILY_DEDUCTION_TAXPAYER_MONTHLY', date) ?? 15500000`. -/
def residentTaxpayerDeduction (cat : RulesCatalog) (date : DateIdx) : ℚ :=
  (getConstant cat "FAMILY_DEDUCTION_TAXPAYER_MONTHLY" date).getD 15500000

/-- The per-dependent deduction `calculateResidentPIT` uses:
`getConstant('FAMILY_DEDUCTION_DEPENDENT_MONTHLY', date) ?? 6200000`. -/
def residentDependentDeduction (cat : RulesCatalog) (date : DateIdx) : ℚ :=
  (getConstant cat "FAMILY_DEDUCTION_DEPENDENT_MONTHLY" date).getD 6200000

/-- `grossIncome = input.grossSalary + input.taxableAllowances`. -/
def grossIncomeOf (input : PITInput) : ℚ :=
  input.grossSalary + input.taxableAllowances

/-- `baseDeductions = taxpayerDeduction + dependentsCount × dependentDeduction
+ insuranceContributions`. -/
def baseDeductionsOf (cat : RulesCatalog) (date : DateIdx) (input : PITInput) : ℚ :=
  residentTaxpayerDeduction cat date +
    input.dependentsCount * residentDependentDeduction cat date +
    input.insuranceContributions

/-- The charitable deduction of `calculateResidentPIT`:
`donationInput = max(0, charityDonations ?? 0)`,
`donationCap = max(0, grossIncome - baseDeductions)`,
`charityDeduction = min(donationInput, donationCap)`. -/
def charityDeductionOf (cat : RulesCatalog) (date : DateIdx) (input : PITInput) : ℚ :=
  let donationInput := max 0 (input.charityDonations.getD 0)
  let donationCap := max 0 (grossIncomeOf input - baseDeductionsOf cat date input)
  min donationInput donationCap

/-- `assessableIncome = max(0, grossIncome - (baseDeductions + charityDeduction))`. -/
def assessableIncomeOf (cat : RulesCatalog) (date : DateIdx) (input : PITInput) : ℚ :=
  max 0 (grossIncomeOf input -
    (baseDeductionsOf cat date input + charityDeductionOf cat date input))

/-- Engine `calculateResidentPIT`. The only `throw` is the missing
resident tax table; the deduction constants fall back to literals and
never fail. The breakdown reproduces the engine's push order with the
conditional lines (allowances / dependents / insurance / charity) present
exactly when the corresponding amount is positive. -/
def calculateResidentPIT (cat : RulesCatalog) (input : PITInput)
    (date : DateIdx) : Except String PITResult :=
  match getTaxTableByScope cat .resident_employment_income date with
  | none => .error "No resident employment income tax table found for date"
  | some taxTable =>
    let taxpayerDeduction := residentTaxpayerDeduction cat date
    let dependentDeduction := residentDependentDeduction cat date
    let grossIncome := grossIncomeOf input
    let totalDependentDeduction := input.dependentsCount * dependentDeduction
    let charityDeduction := charityDeductionOf cat date input
    let assessableIncome := assessableIncomeOf cat date input
    let r := calculateProgressiveTax assessableIncome taxTable
    let monthlyPIT := r.1
    let breakdown : List BreakdownStep :=
      [⟨input.grossSalary, false⟩] ++
      (if 0 < input.taxableAllowances then [⟨input.taxableAllowances, false⟩] else []) ++
      [⟨grossIncome, false⟩, ⟨-taxpayerDeduction, true⟩] ++
      (if 0 < input.dependentsCount then [⟨-totalDependentDeduction, true⟩] else []) ++
      (if 0 < input.insuranceContributions
        then [⟨-input.insuranceContributions, true⟩] else []) ++
      (if 0 < charityDeduction then [⟨-charityDeduction, true⟩] else []) ++
      [⟨assessableIncome, false⟩] ++ r.2 ++ [⟨monthlyPIT, false⟩]
    .ok
      { monthlyPIT := monthlyPIT
        annualizedPIT := monthlyPIT * 12
        effectiveRate := if 0 < grossIncome then monthlyPIT / grossIncome else 0
        breakdown := breakdown }

-- ==================== NON-RESIDENT PIT CALCULATOR ====================

/-- The flat rate of `calculateNonResidentPIT`:
`getTaxTableByScope('nonresident_employment_income', date)?.brackets[0]?.rate
?? 0.20`. -/
def nonResidentRate (cat : RulesCatalog) (date : DateIdx) : ℚ :=
  match getTaxTableByScope cat .nonresident_employment_income date with
  | none => 1/5
  | some t =>
    match t.brackets with
    | [] => 1/5
    | b :: _ => b.rate

/-- Engine `calculateNonResidentPIT`: flat rate on
`grossSalary + taxableAllowances`, no deductions, `effectiveRate = rate`. -/
def calculateNonResidentPIT (cat : RulesCatalog) (input : PITInput)
    (date : DateIdx) : PITResult :=
  let rate := nonResidentRate cat date
  let taxableIncome := input.grossSalary + input.taxableAllowances
  let monthlyPIT := taxableIncome * rate
  { monthlyPIT := monthlyPIT
    annualizedPIT := monthlyPIT * 12
    effectiveRate := rate
    breakdown :=
      [⟨input.grossSalary, false⟩] ++
      (if 0 < input.taxableAllowances then [⟨input.taxableAllowances, false⟩] else []) ++
      [⟨taxableIncome, false⟩, ⟨monthlyPIT, false⟩, ⟨monthlyPIT, false⟩] }

/-- Engine `calculatePIT`: dispatch purely on the residency status; only
the resident path can fail. -/
def calculatePIT (cat : RulesCatalog) (input : PITInput) (date : DateIdx) :
    Except String PITResult :=
  match input.residencyStatus with
  | .non_resident => .ok (calculateNonResidentPIT cat input date)
  | .resident => calculateResidentPIT cat input date

-- ==================== WITHHOLDING CHECK ====================

/-- `WithholdingInput` of the engine. -/
structure WithholdingInput where
  hasLaborContract : Bool
  contractDurationMonths : Option ℚ := none
  paymentAmount : ℚ
deriving DecidableEq

/-- `WithholdingResult` (the explanation string is presentational). -/
structure WithholdingResult where
  withholdRequired : Bool
  withholdingRate : ℚ
  withholdingAmount : ℚ
  ruleId : String
deriving DecidableEq

/-- Engine `checkWithholding`: 10% withholding is required when there is
no long contract (no contract at all, or a set duration below the 3-month
threshold) and the payment is at or above the 2,000,000 threshold. -/
def checkWithholding (cat : RulesCatalog) (date : DateIdx)
    (input : WithholdingInput) : WithholdingResult :=
  let threshold := (getConstant cat "WITHHOLDING_THRESHOLD" date).getD 2000000
  let rate := (getConstant cat "WITHHOLDING_RATE" date).getD (1/10)
  let contractThreshold :=
    (getConstant cat "SHORT_TERM_CONTRACT_THRESHOLD_MONTHS" date).getD 3
  let rule := getDecisionRule cat
    "WITHHOLDING_10_PERCENT_NO_CONTRACT_OR_LT_3_MONTHS_PAYMENT_GE_2M" date
  let noLongContract := !input.hasLaborContract ||
    (match input.contractDurationMonths with
     | none => false
     | some d => decide (d < contractThreshold))
  let paymentExceedsThreshold := decide (threshold ≤ input.paymentAmount)
  let withholdRequired := noLongContract && paymentExceedsThreshold
  { withholdRequired := withholdRequired
    withholdingRate := if withholdRequired then rate else 0
    withholdingAmount := if withholdRequired then input.paymentAmount * rate else 0
    ruleId := (rule.map (·.rule_id)).getD "WITHHOLDING_10_PERCENT" }

-- ==================== INSURANCE ====================

/-- The four salary zones. -/
inductive SalaryZone where
  | zone1
  | zone2
  | zone3
  | zone4
deriving DecidableEq

/-- `MINIMUM_WAGES_2026`: 2026 minimum wage per zone, VND/month. -/
def MINIMUM_WAGES_2026 : SalaryZone → ℚ
  | .zone1 => 4960000
  | .zone2 => 4410000
  | .zone3 => 3860000
  | .zone4 => 3450000

/-- `BASIC_WAGE_2026` (SI/HI caps are 20 times this amount). -/
def BASIC_WAGE_2026 : ℚ := 2340000

/-- Employee-side entries of `INSURANCE_RATES`. -/
structure EmployeeRateSet where
  socialInsurance : ℚ
  healthInsurance : ℚ
  unemployment : ℚ

/-- Employer-side entries of `INSURANCE_RATES`. -/
structure EmployerRateSet where
  socialInsurance : ℚ
  healthInsurance : ℚ
  unemployment : ℚ
  tradeUnion : ℚ

/-- The `INSURANCE_RATES` record: employee SI 8%, HI 1.5%, UI 1%;
employer SI 17.5%, HI 3%, UI 1%, trade union 2%. -/
structure InsuranceRateTable where
  employee : EmployeeRateSet
  employer : EmployerRateSet

def INSURANCE_RATES : InsuranceRateTable :=
  { employee := { socialInsurance := 8/100, healthInsurance := 15/1000,
                  unemployment := 1/100 }
    employer := { socialInsurance := 175/1000, healthInsurance := 3/100,
                  unemployment := 1/100, tradeUnion := 2/100 } }

/-- `InsuranceInput` of the engine. -/
structure InsuranceInput where
  grossSalary : ℚ
  zone : SalaryZone
  isExpat : Option Bool := none
deriving DecidableEq

/-- The employee block of `InsuranceResult`. -/
structure EmployeeInsurance where
  socialInsurance : ℚ
  healthInsurance : ℚ
  unemployment : ℚ
  total : ℚ
deriving DecidableEq

/-- The employer block of `InsuranceResult`. -/
structure EmployerInsurance where
  socialInsurance : ℚ
  healthInsurance : ℚ
  unemployment : ℚ
  tradeUnion : ℚ
  total : ℚ
deriving DecidableEq

/-- `InsuranceResult` (advisory note strings omitted). -/
structure InsuranceResult where
  employee : EmployeeInsurance
  employer : EmployerInsurance
  totalEmployerCost : ℚ
  baseForSI : ℚ
  baseForHI : ℚ
  baseForUI : ℚ
deriving DecidableEq

/-- Engine `calculateInsurance`: SI/HI bases capped at 20 × basic wage,
UI base capped at 20 × the zone minimum wage; expats are exempt from UI
on both sides; trade union is always paid on the SI base. -/
def calculateInsurance (input : InsuranceInput) : InsuranceResult :=
  let siHiCap := BASIC_WAGE_2026 * 20
  let uiCap := MINIMUM_WAGES_2026 input.zone * 20
  let baseForSI := min input.grossSalary siHiCap
  let baseForHI := min input.grossSalary siHiCap
  let baseForUI := min input.grossSalary uiCap
  let empSI := baseForSI * INSURANCE_RATES.employee.socialInsurance
  let empHI := baseForHI * INSURANCE_RATES.employee.healthInsurance
  let empUI := if truthyBool input.isExpat then 0
    else baseForUI * INSURANCE_RATES.employee.unemployment
  let employeeTotal := empSI + empHI + empUI
  let erSI := baseForSI * INSURANCE_RATES.employer.socialInsurance
  let erHI := baseForHI * INSURANCE_RATES.employer.healthInsurance
  let erUI := if truthyBool input.isExpat then 0
    else baseForUI * INSURANCE_RATES.employer.unemployment
  let erTU := baseForSI * INSURANCE_RATES.employer.tradeUnion
  let employerTotal := erSI + erHI + erUI + erTU
  { employee := { socialInsurance := empSI, healthInsurance := empHI,
                  unemployment := empUI, total := employeeTotal }
    employer := { socialInsurance := erSI, healthInsurance := erHI,
                  unemployment := erUI, tradeUnion := erTU, total := employerTotal }
    totalEmployerCost := input.grossSalary + employerTotal
    baseForSI := baseForSI
    baseForHI := baseForHI
    baseForUI := baseForUI }

-- ==================== GROSS TO NET ====================

/-- A JavaScript number outcome: a finite rational, or one of the
non-finite IEEE values JavaScript division can produce. -/
inductive JSNum where
  | finite (q : ℚ)
  | nan
  | posInf
  | negInf
deriving DecidableEq

/-- JavaScript division on (finite) numbers: `0 / 0` is NaN, `a / 0` for
nonzero `a` is a signed infinity, and otherwise the exact quotient. -/
def jsDiv (a b : ℚ) : JSNum :=
  if b = 0 then
    (if a = 0 then .nan else if 0 < a then .posInf else .negInf)
  else .finite (a / b)

/-- `GrossToNetInput` of the engine. -/
structure GrossToNetInput where
  grossSalary : ℚ
  residencyStatus : TaxResidency
  dependentsCount : ℚ
  zone : SalaryZone
  isExpat : Option Bool := none
  useFixed10Percent : Option Bool := none
deriving DecidableEq

/-- `GrossToNetResult`; `effectiveRate` is the unguarded quotient
`pit / grossSalary` and so is modelled as a `JSNum`. -/
structure GrossToNetResult where
  gross : ℚ
  insurance : EmployeeInsurance
  pit : ℚ
  net : ℚ
  effectiveRate : JSNum
  breakdown : List BreakdownStep
  employerCost : ℚ
deriving DecidableEq

/-- Engine `grossToNet`: employee insurance first, then either the fixed
10% rate or the PIT dispatcher (with the computed insurance total as
`insuranceContributions` and zero allowances), then
`net = gross - insurance - pit`. A resident-table failure inside the
dispatcher propagates. -/
def grossToNetInsurance (input : GrossToNetInput) : InsuranceResult :=
  calculateInsurance
    { grossSalary := input.grossSalary, zone := input.zone, isExpat := input.isExpat }

/-- The PIT step of `grossToNet`: either the fixed 10% of gross, or the
PIT dispatcher on the gross with the computed employee insurance total
and zero allowances. -/
def grossToNetPitE (cat : RulesCatalog) (date : DateIdx)
    (input : GrossToNetInput) : Except String ℚ :=
  if truthyBool input.useFixed10Percent then
    .ok (input.grossSalary * (1/10))
  else
    (calculatePIT cat
      { residencyStatus := input.residencyStatus
        grossSalary := input.grossSalary
        taxableAllowances := 0
        dependentsCount := input.dependentsCount
        insuranceContributions := (grossToNetInsurance input).employee.total
        charityDonations := none } date).map (·.monthlyPIT)

/-- The result record `grossToNet` assembles once the PIT amount is
known: `net = gross - employee insurance - pit`, and the effective rate
is the unguarded JavaScript quotient `pit / grossSalary`. -/
def mkGrossToNetResult (input : GrossToNetInput) (pit : ℚ) : GrossToNetResult :=
  let insurance := grossToNetInsurance input
  let salaryBeforeTax := input.grossSalary - insurance.employee.total
  let net := input.grossSalary - insurance.employee.total - pit
  { gross := input.grossSalary
    insurance := insurance.employee
    pit := pit
    net := net
    effectiveRate := jsDiv pit input.grossSalary
    breakdown :=
      [⟨input.grossSalary, false⟩,
       ⟨-insurance.employee.socialInsurance, true⟩,
       ⟨-insurance.employee.healthInsurance, true⟩] ++
      (if truthyBool input.isExpat then []
        else [⟨-insurance.employee.unemployment, true⟩]) ++
      [⟨salaryBeforeTax, false⟩, ⟨pit, false⟩, ⟨net, false⟩]
    employerCost := insurance.totalEmployerCost }

def grossToNet (cat : RulesCatalog) (date : DateIdx)
    (input : GrossToNetInput) : Except String GrossToNetResult :=
  match grossToNetPitE cat date input with
  | .error e => .error e
  | .ok pit => .ok (mkGrossToNetResult input pit)

-- ==================== NET TO GROSS ====================

/-- The input of `netToGross`: a `GrossToNetInput` with the gross salary
replaced by the target net salary. -/
structure NetToGrossInput where
  netSalary : ℚ
  residencyStatus : TaxResidency
  dependentsCount : ℚ
  zone : SalaryZone
  isExpat : Option Bool := none
  useFixed10Percent : Option Bool := none
deriving DecidableEq

/-- Spread of a `NetToGrossInput` back into a `GrossToNetInput` with a
candidate gross salary (the `{...input, grossSalary: mid}` spread). -/
def withGross (i : NetToGrossInput) (g : ℚ) : GrossToNetInput :=
  { grossSalary := g, residencyStatus := i.residencyStatus,
    dependentsCount := i.dependentsCount, zone := i.zone,
    isExpat := i.isExpat, useFixed10Percent := i.useFixed10Percent }

/-- The bisection loop of `netToGross`, with the remaining iteration
budget as explicit fuel. Each pass takes the integer-floor midpoint,
evaluates `grossToNet` there, returns when the net is within 1,000 VND of
the target, and otherwise halves the interval; an exhausted budget
evaluates `grossToNet` once more at the final midpoint and returns that
estimate with the accumulated iteration count. -/
def netToGrossGo (cat : RulesCatalog) (date : DateIdx) (i : NetToGrossInput)
    (target : ℚ) :
    Nat → ℚ → ℚ → Nat → Except String (GrossToNetResult × Nat)
  | 0, low, high, iterations =>
    (grossToNet cat date (withGross i ((⌊(low + high) / 2⌋ : ℤ) : ℚ))).map
      (fun r => (r, iterations))
  | fuel + 1, low, high, iterations =>
    let iterations := iterations + 1
    let mid : ℚ := ((⌊(low + high) / 2⌋ : ℤ) : ℚ)
    match grossToNet cat date (withGross i mid) with
    | .error e => .error e
    | .ok result =>
      if |result.net - target| < 1000 then .ok (result, iterations)
      else if result.net < target then
        netToGrossGo cat date i target fuel mid high iterations
      else
        netToGrossGo cat date i target fuel low mid iterations

/-- Engine `netToGross`: binary search starting from `low = target`,
`high = target × 2`, with a budget of 50 iterations and a 1,000 VND
tolerance. -/
def netToGross (cat : RulesCatalog) (date : DateIdx) (i : NetToGrossInput) :
    Except String (GrossToNetResult × Nat) :=
  netToGrossGo cat date i i.netSalary 50 i.netSalary (i.netSalary * 2) 0

-- ==================== CLAIM-SIDE ALGORITHM (for refinement) ====================

/-- The bracket walk as the specification words it: iterate brackets in
order, tax `min(remainingIncome, width)` in each bracket at that bracket's
rate with `width = (max_inclusive ?? +∞) - (min_inclusive ?? min_exclusive
?? 0)`, subtract the taxed amount from the remaining income, and stop when
the remaining income is ≤ 0 or the brackets are exhausted. Unlike the
engine loop this wording emits a contribution for every visited bracket;
the two agree whenever every bounded bracket has positive width. -/
def claimBracketWalk : ℚ → List TaxBracket → ℚ × List BreakdownStep
  | _, [] => (0, [])
  | remaining, b :: bs =>
    if remaining ≤ 0 then (0, [])
    else
      let amount := taxableInBracket b remaining
      let rest := claimBracketWalk (remaining - amount) bs
      (amount * b.rate + rest.1, ⟨amount * b.rate, false⟩ :: rest.2)

/-- The specification-side progressive tax: `claimBracketWalk` over the
table's brackets. -/
def claimProgressiveTax (assessableIncome : ℚ) (table : TaxTable) :
    ℚ × List BreakdownStep :=
  claimBracketWalk assessableIncome table.brackets

-- ==================== CONCRETE FIXTURES ====================

/-- An empty rules catalog: every lookup misses, so every engine constant
takes its literal fallback. -/
def emptyCat : RulesCatalog :=
  { constants := [], tax_tables := [], decision_rules := [], exemptions := [] }

/-- The 2026 resident bracket list as pinned by the repository's
regression tests: 5% up to 10M, 10% to 30M, 20% to 60M, 30% to 100M,
35% above. -/
def vnBrackets2026 : List TaxBracket :=
  [{ min_inclusive := some 0, max_inclusive := some 10000000, rate := 5/100 },
   { min_exclusive := some 10000000, max_inclusive := some 30000000, rate := 10/100 },
   { min_exclusive := some 30000000, max_inclusive := some 60000000, rate := 20/100 },
   { min_exclusive := some 60000000, max_inclusive := some 100000000, rate := 30/100 },
   { min_exclusive := some 100000000, max_inclusive := none, rate := 35/100 }]

/-- The 2026 resident tax table fixture. -/
def vnResidentTable2026 : TaxTable :=
  { table_id := "VN_PIT_2026_RESIDENT_PROGRESSIVE"
    scope := .resident_employment_income
    effective_from := 0
    effective_to := none
    brackets := vnBrackets2026 }

/-- The 2026 non-resident flat table fixture (single 20% bracket). -/
def vnNonResidentTable2026 : TaxTable :=
  { table_id := "VN_NONRESIDENT_EMPLOYMENT_FLAT_2026"
    scope := .nonresident_employment_income
    effective_from := 0
    effective_to := none
    brackets := [{ min_inclusive := some 0, max_inclusive := none, rate := 1/5 }] }

/-- A catalog fixture with the 2026 tables and family-deduction constants. -/
def vnCat2026 : RulesCatalog :=
  { constants :=
      [⟨"FAMILY_DEDUCTION_TAXPAYER_MONTHLY", 15500000, 0, none⟩,
       ⟨"FAMILY_DEDUCTION_DEPENDENT_MONTHLY", 6200000, 0, none⟩],
    tax_tables := [vnResidentTable2026, vnNonResidentTable2026],
    decision_rules := [],
    exemptions := [] }

/-- A deliberately ill-formed catalog in which two constants with the same
key and two tax tables with the same scope have overlapping effective
windows, exhibiting the multi-match situation. -/
def dupCat : RulesCatalog :=
  { constants := [⟨"K", 100, 0, none⟩, ⟨"K", 200, 0, none⟩],
    tax_tables :=
      [{ vnResidentTable2026 with table_id := "T1" },
       { vnResidentTable2026 with table_id := "T2" }],
    decision_rules := [],
    exemptions := [] }

/-- A resident PIT input with a negative `charityDonations` field (the
input type places no sign restriction), used to separate the engine's
clamped donation from the claim's unclamped formula. -/
def negDonationInput : PITInput :=
  { residencyStatus := .resident, grossSalary := 100000000,
    taxableAllowances := 0, dependentsCount := 0,
    insuranceContributions := 0, charityDonations := some (-1) }

-- ==================== HELPER LEMMAS ====================

/-- `List.find?` returns the first satisfying element: whatever follows
it — further matches included — is ignored. -/
theorem find?_first {α : Type} (p : α → Bool) :
    ∀ (pre : List α) (c : α) (post : List α),
      (∀ a ∈ pre, p a = false) → p c = true →
      (pre ++ c :: post).find? p = some c
  | [], c, post, _, hc => by simp [List.find?_cons_of_pos, hc]
  | a :: pre, c, post, hpre, hc => by
    rw [List.cons_append, List.find?_cons_of_neg _ (by
      simp [hpre a (List.mem_cons_self a pre)])]
    exact find?_first p pre c post
      (fun x hx => hpre x (List.mem_cons_of_mem a hx)) hc

/-- Non-positive remaining income short-circuits the bracket loop. -/
theorem progressiveSteps_of_nonpos (bs : List TaxBracket) (r : ℚ) (h : r ≤ 0) :
    progressiveSteps r bs = (0, []) := by
  cases bs with
  | nil => rfl
  | cons b bs => simp [progressiveSteps, h]

/-- The accumulated tax of the bracket loop is the sum of the amounts of
the emitted breakdown steps. -/
theorem progressiveSteps_tax_eq_sum (bs : List TaxBracket) :
    ∀ r : ℚ, (progressiveSteps r bs).1
      = ((progressiveSteps r bs).2.map (·.amount)).sum := by
  induction bs with
  | nil => intro r; simp [progressiveSteps]
  | cons b bs ih =>
    intro r
    by_cases h : r ≤ 0
    · simp [progressiveSteps, h]
    · by_cases hp : 0 < taxableInBracket b r
      · simp [progressiveSteps, h, hp, ih]
      · simp [progressiveSteps, h, hp, ih]

/-- When every bounded bracket has positive width, the engine loop and the
specification-side walk coincide (the positivity guard never skips). -/
theorem progressiveSteps_eq_claimWalk :
    ∀ bs : List TaxBracket,
      (∀ b ∈ bs, ∀ mx, b.max_inclusive = some mx → bracketMin b < mx) →
      ∀ r : ℚ, progressiveSteps r bs = claimBracketWalk r bs
  | [], _, _ => rfl
  | b :: bs, hb, r => by
    by_cases h : r ≤ 0
    · simp [progressiveSteps, claimBracketWalk, h]
    · have hr : 0 < r := lt_of_not_le h
      have hpos : 0 < taxableInBracket b r := by
        unfold taxableInBracket
        cases hmx : b.max_inclusive with
        | none => exact hr
        | some mx =>
          exact lt_min hr (sub_pos.mpr (hb b (List.mem_cons_self b bs) mx hmx))
      have ih := progressiveSteps_eq_claimWalk bs
        (fun b2 hb2 mx hmx => hb b2 (List.mem_cons_of_mem b hb2) mx hmx)
        (r - taxableInBracket b r)
      simp [progressiveSteps, claimBracketWalk, h, hpos, ih]

-- ==================== CLAIM C1 ====================

/-- C1. The progressive tax evaluator iterates the brackets in order,
taxing `min(remainingIncome, width)` in each bracket at that bracket's
rate with `width = (max_inclusive ?? +∞) - (min_inclusive ?? min_exclusive
?? 0)`, stopping when remaining income is ≤ 0 or the brackets are
exhausted (the `claimProgressiveTax` refinement, valid whenever every
bounded bracket has positive width); the returned tax equals the sum of
the amounts of the returned per-bracket breakdown; and any assessable
income ≤ 0 yields tax 0 with an empty breakdown (the evaluator is a total
function, so no error is possible). -/
theorem claim1_progressive_tax_evaluator (income : ℚ) (table : TaxTable) :
    (income ≤ 0 → calculateProgressiveTax income table = (0, []))
    ∧ (calculateProgressiveTax income table).1
        = ((calculateProgressiveTax income table).2.map (·.amount)).sum
    ∧ ((∀ b ∈ table.brackets, ∀ mx, b.max_inclusive = some mx → bracketMin b < mx) →
        calculateProgressiveTax income table = claimProgressiveTax income table) := by
  refine ⟨fun h => progressiveSteps_of_nonpos table.brackets income h,
    progressiveSteps_tax_eq_sum table.brackets income,
    fun hb => progressiveSteps_eq_claimWalk table.brackets hb income⟩

/-- Witness for C1 at concrete inputs: a negative income on the 2026
table yields tax 0 with no steps, and on the 2026 table (all widths
positive) the engine agrees with the specification-side walk at the
regression income 34,500,000. -/
theorem claim1_progressive_tax_evaluator_witness :
    calculateProgressiveTax (-5) vnResidentTable2026 = (0, [])
    ∧ calculateProgressiveTax 34500000 vnResidentTable2026
        = claimProgressiveTax 34500000 vnResidentTable2026 := by
  constructor
  · exact (claim1_progressive_tax_evaluator (-5) vnResidentTable2026).1 (by norm_num)
  · refine (claim1_progressive_tax_evaluator 34500000 vnResidentTable2026).2.2 ?_
    intro b hb mx hmx
    simp only [vnResidentTable2026, vnBrackets2026, List.mem_cons,
      List.mem_singleton, List.not_mem_nil, or_false] at hb
    rcases hb with h | h | h | h | h <;> subst h <;>
      simp only [Option.some.injEq, bracketMin] at hmx ⊢ <;>
      first
        | exact absurd hmx (by simp)
        | (subst hmx; norm_num)

-- ==================== CLAIM C2 ====================

/-- C2. `calculateResidentPIT` fails exactly when no tax table with scope
`resident_employment_income` is active for the assessment date — it never
silently substitutes a default table — whereas a missing taxpayer or
dependent deduction constant does not fail: the deductions the calculator
uses fall back to the literal defaults 15,500,000 and 6,200,000 VND. -/
theorem claim2_resident_table_fatal (cat : RulesCatalog) (input : PITInput)
    (date : DateIdx) :
    ((∃ e, calculateResidentPIT cat input date = .error e) ↔
      getTaxTableByScope cat .resident_employment_income date = none)
    ∧ (getConstant cat "FAMILY_DEDUCTION_TAXPAYER_MONTHLY" date = none →
        residentTaxpayerDeduction cat date = 15500000)
    ∧ (getConstant cat "FAMILY_DEDUCTION_DEPENDENT_MONTHLY" date = none →
        residentDependentDeduction cat date = 6200000) := by
  refine ⟨?_, ?_, ?_⟩
  · constructor
    · rintro ⟨e, he⟩
      cases h : getTaxTableByScope cat .resident_employment_income date with
      | none => rfl
      | some t => rw [calculateResidentPIT, h] at he; exact absurd he (by simp)
    · intro h
      exact ⟨"No resident employment income tax table found for date",
        by rw [calculateResidentPIT, h]⟩
  · intro h; rw [residentTaxpayerDeduction, h]; rfl
  · intro h; rw [residentDependentDeduction, h]; rfl

/-- Witness for C2 on the empty catalog (no table, no constants): the
calculator fails, and both deduction fallbacks take their literal values. -/
theorem claim2_resident_table_fatal_witness :
    (∃ e, calculateResidentPIT emptyCat
      ⟨.resident, 20000000, 0, 0, 0, none⟩ 5 = .error e)
    ∧ residentTaxpayerDeduction emptyCat 5 = 15500000
    ∧ residentDependentDeduction emptyCat 5 = 6200000 := by
  refine ⟨(claim2_resident_table_fatal emptyCat ⟨.resident, 20000000, 0, 0, 0, none⟩
      5).1.mpr rfl,
    (claim2_resident_table_fatal emptyCat ⟨.resident, 20000000, 0, 0, 0, none⟩
      5).2.1 rfl,
    (claim2_resident_table_fatal emptyCat ⟨.resident, 20000000, 0, 0, 0, none⟩
      5).2.2 rfl⟩

-- ==================== CLAIM C10 ====================

/-- C10. The residency classifier only ever returns the `resident` or
`non_resident` status; the third declared variant `unknown` of the
`ResidencyStatus` type is never produced. -/
theorem claim10_status_never_unknown (cat : RulesCatalog) (date : DateIdx)
    (input : ResidencyInput) :
    ((determineResidency cat date input).status = .resident ∨
      (determineResidency cat date input).status = .non_resident)
    ∧ (determineResidency cat date input).status ≠ .unknown := by
  rw [determineResidency]
  split
  · exact ⟨Or.inl rfl, by simp⟩
  · split
    · exact ⟨Or.inl rfl, by simp⟩
    · split
      · exact ⟨Or.inl rfl, by simp⟩
      · exact ⟨Or.inr rfl, by simp⟩

-- ==================== CLAIM C6 ====================

/-- C6. `determineResidency` evaluates its tests in the fixed order — the
183-day test, the 12-consecutive-month rolling test, the housing
indicators, then the non-resident default — with the first matching branch
deciding the result (stated for a positive threshold, where the JS
truthiness guard on the optional rolling day count cannot diverge from
the plain comparison). With the catalog silent the threshold defaults to
183, so 183 days alone is resident with high confidence and 182 days
alone is non-resident; on the non-resident branch confidence is high
exactly when the day count is below 150, and `whatWouldChange` lists the
exact day deficit plus the two housing-indicator alternatives. -/
theorem claim6_residency_decision_order (cat : RulesCatalog) (date : DateIdx)
    (input : ResidencyInput) (T : ℚ)
    (hT : (getConstant cat "RESIDENCY_DAYS_THRESHOLD" date).getD 183 = T)
    (hpos : 0 < T) :
    (T ≤ input.daysInTaxYear →
      (determineResidency cat date input).status = .resident ∧
      (determineResidency cat date input).confidence = .high)
    ∧ (¬ T ≤ input.daysInTaxYear →
        ∀ d, input.daysIn12ConsecutiveMonths = some d → T ≤ d →
        (determineResidency cat date input).status = .resident ∧
        (determineResidency cat date input).confidence = .high)
    ∧ (¬ T ≤ input.daysInTaxYear →
        (∀ d, input.daysIn12ConsecutiveMonths = some d → ¬ T ≤ d) →
        (input.hasPermanentResidence.getD false = true ∨
          input.hasRentalContract183Days.getD false = true) →
        (determineResidency cat date input).status = .resident ∧
        (determineResidency cat date input).confidence = .medium)
    ∧ (¬ T ≤ input.daysInTaxYear →
        (∀ d, input.daysIn12ConsecutiveMonths = some d → ¬ T ≤ d) →
        input.hasPermanentResidence.getD false = false →
        input.hasRentalContract183Days.getD false = false →
        (determineResidency cat date input).status = .non_resident
        ∧ ((determineResidency cat date input).confidence = .high ↔
            input.daysInTaxYear < 150)
        ∧ (determineResidency cat date input).whatWouldChange
            = [.needMoreDays (T - input.daysInTaxYear),
               .registerPermanentResidence, .signRentalContract183Days])
    ∧ (getConstant cat "RESIDENCY_DAYS_THRESHOLD" date = none →
        ((determineResidency cat date ⟨183, none, none, none⟩).status = .resident
          ∧ (determineResidency cat date ⟨183, none, none, none⟩).confidence = .high)
        ∧ (determineResidency cat date ⟨182, none, none, none⟩).status
            = .non_resident) := by
  have hT2 : (getConstant cat "RESIDENCY_DAYS_THRESHOLD" date).getD 183 = T := hT
  refine ⟨?_, ?_, ?_, ?_, ?_⟩
  · intro h1
    rw [determineResidency, hT2, if_pos h1]
    exact ⟨rfl, rfl⟩
  · intro h1 d hd h2
    have hne : d ≠ 0 := fun h0 => absurd (h0 ▸ h2) (not_le.mpr hpos)
    rw [determineResidency, hT2, if_neg h1, if_pos
      (by simp [truthyNum, hd, hne, h2])]
    exact ⟨rfl, rfl⟩
  · intro h1 h2 h3
    have hc2 : ¬ ((truthyNum input.daysIn12ConsecutiveMonths &&
        decide (T ≤ (input.daysIn12ConsecutiveMonths.getD 0))) = true) := by
      cases hd : input.daysIn12ConsecutiveMonths with
      | none => simp [truthyNum]
      | some d => simp [truthyNum, h2 d hd]
    rw [determineResidency, hT2, if_neg h1, if_neg hc2, if_pos
      (by rcases h3 with h | h <;> simp [truthyBool, h])]
    exact ⟨rfl, rfl⟩
  · intro h1 h2 h3 h4
    have hc2 : ¬ ((truthyNum input.daysIn12ConsecutiveMonths &&
        decide (T ≤ (input.daysIn12ConsecutiveMonths.getD 0))) = true) := by
      cases hd : input.daysIn12ConsecutiveMonths with
      | none => simp [truthyNum]
      | some d => simp [truthyNum, h2 d hd]
    rw [determineResidency, hT2, if_neg h1, if_neg hc2, if_neg
      (by simp [truthyBool, h3, h4])]
    refine ⟨rfl, ?_, rfl⟩
    by_cases h150 : input.daysInTaxYear < 150
    · simp [h150]
    · simp [h150]
  · intro hnone
    have h183 : (getConstant cat "RESIDENCY_DAYS_THRESHOLD" date).getD 183 = 183 := by
      rw [hnone]; rfl
    refine ⟨⟨?_, ?_⟩, ?_⟩
    · rw [determineResidency, h183, if_pos (by norm_num)]
    · rw [determineResidency, h183, if_pos (by norm_num)]
    · rw [determineResidency, h183, if_neg (by norm_num),
        if_neg (by simp [truthyNum]), if_neg (by simp [truthyBool])]

/-- Witness for C6: on the empty catalog (default threshold 183),
100 days alone is non-resident with high confidence and an 83-day
deficit note; 183 days alone is resident with high confidence; 182 days
alone is non-resident. -/
theorem claim6_residency_decision_order_witness :
    ((determineResidency emptyCat 5 ⟨100, none, none, none⟩).status = .non_resident
      ∧ ((determineResidency emptyCat 5 ⟨100, none, none, none⟩).confidence = .high ↔
          (100:ℚ) < 150)
      ∧ (determineResidency emptyCat 5 ⟨100, none, none, none⟩).whatWouldChange
          = [.needMoreDays ((183:ℚ) - 100), .registerPermanentResidence,
             .signRentalContract183Days])
    ∧ ((determineResidency emptyCat 5 ⟨183, none, none, none⟩).status = .resident
      ∧ (determineResidency emptyCat 5 ⟨183, none, none, none⟩).confidence = .high)
    ∧ (determineResidency emptyCat 5 ⟨182, none, none, none⟩).status
        = .non_resident := by
  have h := claim6_residency_decision_order emptyCat 5 ⟨100, none, none, none⟩
    183 rfl (by norm_num)
  refine ⟨h.2.2.2.1 (by norm_num) (fun d hd => absurd hd (by simp)) rfl rfl,
    (h.2.2.2.2 rfl).1, (h.2.2.2.2 rfl).2⟩

-- ==================== CLAIM C5 ====================

/-- C5. `calculateNonResidentPIT` returns `monthlyPIT = (grossSalary +
taxableAllowances) × rate` and `effectiveRate = rate`, where the rate is
the first bracket's rate of the `nonresident_employment_income` table and
defaults to 0.20 when no table resolves; two inputs differing only in
`dependentsCount` and `insuranceContributions` get identical `monthlyPIT`,
`annualizedPIT` and `effectiveRate` — those inputs are ignored. -/
theorem claim5_nonresident_flat_rate (cat : RulesCatalog) (date : DateIdx)
    (i1 i2 : PITInput)
    (hg : i1.grossSalary = i2.grossSalary)
    (ha : i1.taxableAllowances = i2.taxableAllowances) :
    (calculateNonResidentPIT cat i1 date).monthlyPIT
        = (i1.grossSalary + i1.taxableAllowances) * nonResidentRate cat date
    ∧ (calculateNonResidentPIT cat i1 date).effectiveRate = nonResidentRate cat date
    ∧ (∀ t b bs, getTaxTableByScope cat .nonresident_employment_income date = some t →
        t.brackets = b :: bs → nonResidentRate cat date = b.rate)
    ∧ (getTaxTableByScope cat .nonresident_employment_income date = none →
        nonResidentRate cat date = 1/5)
    ∧ (calculateNonResidentPIT cat i1 date).monthlyPIT
        = (calculateNonResidentPIT cat i2 date).monthlyPIT
    ∧ (calculateNonResidentPIT cat i1 date).annualizedPIT
        = (calculateNonResidentPIT cat i2 date).annualizedPIT
    ∧ (calculateNonResidentPIT cat i1 date).effectiveRate
        = (calculateNonResidentPIT cat i2 date).effectiveRate := by
  refine ⟨rfl, rfl, ?_, ?_, ?_, ?_, rfl⟩
  · intro t b bs ht hb
    rw [nonResidentRate, ht]
    simp [hb]
  · intro h
    rw [nonResidentRate, h]
  · simp [calculateNonResidentPIT, hg, ha]
  · simp [calculateNonResidentPIT, hg, ha]

/-- Witness for C5: on the 2026 fixture catalog, a non-resident on
50,000,000 VND owes 10,000,000 at effective rate 20% no matter the
dependents and insurance fields. -/
theorem claim5_nonresident_flat_rate_witness :
    (calculateNonResidentPIT vnCat2026 ⟨.non_resident, 50000000, 0, 0, 0, none⟩ 5).monthlyPIT
      = (50000000 + 0) * nonResidentRate vnCat2026 5
    ∧ (calculateNonResidentPIT vnCat2026
        ⟨.non_resident, 50000000, 0, 0, 0, none⟩ 5).monthlyPIT
      = (calculateNonResidentPIT vnCat2026
        ⟨.non_resident, 50000000, 0, 3, 4500000, none⟩ 5).monthlyPIT := by
  have h := claim5_nonresident_flat_rate vnCat2026 5
    ⟨.non_resident, 50000000, 0, 0, 0, none⟩
    ⟨.non_resident, 50000000, 0, 3, 4500000, none⟩ rfl rfl
  exact ⟨h.1, h.2.2.2.2.1⟩

-- ==================== CLAIM C7 ====================

/-- C7. `checkWithholding` requires withholding exactly when no long
contract exists (no labor contract, or a set duration below the 3-month
threshold) and the payment is at or above the threshold (inclusive
boundary); the withheld amount is `paymentAmount × rate` when required
and 0 otherwise; with the catalog silent a payment of exactly 2,000,000
VND with no labor contract requires withholding of 200,000. -/
theorem claim7_withholding_boundary (cat : RulesCatalog) (date : DateIdx)
    (input : WithholdingInput) :
    ((checkWithholding cat date input).withholdRequired = true ↔
      ((input.hasLaborContract = false ∨
          (∃ d, input.contractDurationMonths = some d ∧
            d < (getConstant cat "SHORT_TERM_CONTRACT_THRESHOLD_MONTHS" date).getD 3))
        ∧ (getConstant cat "WITHHOLDING_THRESHOLD" date).getD 2000000
            ≤ input.paymentAmount))
    ∧ (checkWithholding cat date input).withholdingAmount
        = (if (checkWithholding cat date input).withholdRequired
            then input.paymentAmount *
              ((getConstant cat "WITHHOLDING_RATE" date).getD (1/10))
            else 0)
    ∧ (getConstant cat "WITHHOLDING_THRESHOLD" date = none →
        getConstant cat "WITHHOLDING_RATE" date = none →
        (checkWithholding cat date ⟨false, none, 2000000⟩).withholdRequired = true
        ∧ (checkWithholding cat date ⟨false, none, 2000000⟩).withholdingAmount
            = 200000) := by
  refine ⟨?_, ?_, ?_⟩
  · rw [checkWithholding]
    simp only [Bool.and_eq_true, Bool.or_eq_true, Bool.not_eq_eq_eq_not,
      Bool.not_true, decide_eq_true_eq]
    constructor
    · rintro ⟨hnl, hp⟩
      refine ⟨?_, hp⟩
      rcases hnl with h | h
      · exact Or.inl h
      · cases hd : input.contractDurationMonths with
        | none => rw [hd] at h; exact absurd h (by simp)
        | some d =>
          rw [hd] at h; exact Or.inr ⟨d, rfl, by simpa using h⟩
    · rintro ⟨hnl, hp⟩
      refine ⟨?_, hp⟩
      rcases hnl with h | ⟨d, hd, hlt⟩
      · exact Or.inl h
      · exact Or.inr (by rw [hd]; simpa using hlt)
  · rw [checkWithholding]
  · intro ht hr
    rw [checkWithholding, ht, hr]
    refine ⟨by norm_num, by norm_num⟩

/-- Witness for C7 on the empty catalog: payment exactly 2,000,000 with
no contract triggers 10% withholding of 200,000. -/
theorem claim7_withholding_boundary_witness :
    (checkWithholding emptyCat 5 ⟨false, none, 2000000⟩).withholdRequired = true
    ∧ (checkWithholding emptyCat 5 ⟨false, none, 2000000⟩).withholdingAmount
        = 200000 := by
  exact (claim7_withholding_boundary emptyCat 5 ⟨false, none, 2000000⟩).2.2 rfl rfl

-- ==================== CLAIM C3 ====================

/-- C3 counterexample. On the ill-formed catalog `dupCat`, two constants
with key `K` and two tables with the resident scope are simultaneously
active on the date, yet `getConstant` returns the first value (100, not
an error) and `getTaxTableByScope` returns the first table (`T1`): the
lookups do not treat the multiple matches as a data error and do not fail
fast — they silently pick one. -/
theorem claim3_counterexample :
    ((dupCat.constants.filter fun c =>
        c.key == "K" && isActiveOn 10 c.effective_from c.effective_to).length = 2
      ∧ getConstant dupCat "K" 10 = some 100)
    ∧ ((dupCat.tax_tables.filter fun t =>
        decide (t.scope = .resident_employment_income) &&
          isActiveOn 10 t.effective_from t.effective_to).length = 2
      ∧ (getTaxTableByScope dupCat .resident_employment_income 10).map
          (·.table_id) = some "T1") := by
  refine ⟨⟨rfl, rfl⟩, ⟨rfl, rfl⟩⟩

/-- C3 amended. The Rule Accessor lookups resolve multiple matches by
silently returning the first matching catalog entry in catalog order
(`Array.prototype.find` semantics); no multi-match detection or failure
exists. Stated for each lookup: whenever an entry preceded only by
non-matching entries matches the key (or id, or scope) and date, that
entry is returned, whatever matches occur later in the list. -/
theorem claim3_first_match_wins :
    (∀ (key : String) (date : DateIdx) (pre post : List Constant) (c : Constant)
        (T : List TaxTable) (D : List DecisionRule) (E : List Exemption),
      (∀ a ∈ pre,
        (a.key == key && isActiveOn date a.effective_from a.effective_to) = false) →
      (c.key == key && isActiveOn date c.effective_from c.effective_to) = true →
      getConstant ⟨pre ++ c :: post, T, D, E⟩ key date = some c.value
      ∧ getConstantWithMeta ⟨pre ++ c :: post, T, D, E⟩ key date = some c)
    ∧ (∀ (scope : TaxScope) (date : DateIdx) (pre post : List TaxTable)
        (t : TaxTable) (C : List Constant) (D : List DecisionRule)
        (E : List Exemption),
      (∀ a ∈ pre,
        (decide (a.scope = scope) &&
          isActiveOn date a.effective_from a.effective_to) = false) →
      (decide (t.scope = scope) &&
          isActiveOn date t.effective_from t.effective_to) = true →
      getTaxTableByScope ⟨C, pre ++ t :: post, D, E⟩ scope date = some t)
    ∧ (∀ (tid : String) (date : DateIdx) (pre post : List TaxTable)
        (t : TaxTable) (C : List Constant) (D : List DecisionRule)
        (E : List Exemption),
      (∀ a ∈ pre,
        (a.table_id == tid && isActiveOn date a.effective_from a.effective_to)
          = false) →
      (t.table_id == tid && isActiveOn date t.effective_from t.effective_to)
          = true →
      getTaxTable ⟨C, pre ++ t :: post, D, E⟩ tid date = some t)
    ∧ (∀ (rid : String) (date : DateIdx) (pre post : List DecisionRule)
        (r : DecisionRule) (C : List Constant) (T : List TaxTable)
        (E : List Exemption),
      (∀ a ∈ pre,
        (a.rule_id == rid && isActiveOn date a.effective_from a.effective_to)
          = false) →
      (r.rule_id == rid && isActiveOn date r.effective_from r.effective_to)
          = true →
      getDecisionRule ⟨C, T, pre ++ r :: post, E⟩ rid date = some r)
    ∧ (∀ (eid : String) (date : DateIdx) (pre post : List Exemption)
        (e : Exemption) (C : List Constant) (T : List TaxTable)
        (D : List DecisionRule),
      (∀ a ∈ pre,
        (a.exemption_id == eid && isActiveOn date a.effective_from a.effective_to)
          = false) →
      (e.exemption_id == eid && isActiveOn date e.effective_from e.effective_to)
          = true →
      getExemption ⟨C, T, D, pre ++ e :: post⟩ eid date = some e) := by
  refine ⟨?_, ?_, ?_, ?_, ?_⟩
  · intro key date pre post c T D E hpre hc
    constructor
    · rw [getConstant, find?_first _ pre c post hpre hc]
      rfl
    · exact find?_first _ pre c post hpre hc
  · intro scope date pre post t C D E hpre ht
    exact find?_first _ pre t post hpre ht
  · intro tid date pre post t C D E hpre ht
    exact find?_first _ pre t post hpre ht
  · intro rid date pre post r C T E hpre hr
    exact find?_first _ pre r post hpre hr
  · intro eid date pre post e C T D hpre he
    exact find?_first _ pre e post hpre he

/-- Witness for C3 (amended): on the duplicate catalog the first `K`
constant (value 100) wins even though a second active `K` constant
follows it. -/
theorem claim3_first_match_wins_witness :
    getConstant ⟨[] ++ ⟨"K", 100, 0, none⟩ :: [⟨"K", 200, 0, none⟩], [], [], []⟩
      "K" 10 = some (⟨"K", 100, 0, none⟩ : Constant).value := by
  exact (claim3_first_match_wins.1 "K" 10 [] [⟨"K", 200, 0, none⟩]
    ⟨"K", 100, 0, none⟩ [] [] [] (fun a ha => absurd ha (by simp)) rfl).1

-- ==================== CLAIM C4 ====================

/-- C4 counterexample. With a negative donation field the claimed formula
`min(donation, max(0, grossIncome - baseDeductions))` gives -1, but the
engine first clamps the donation to `max(0, ·)` and deducts 0: the
claimed equality fails at this input (and the claim's assessable-income
formula built on its own charity value diverges from the engine's). -/
theorem claim4_counterexample :
    charityDeductionOf emptyCat 5 negDonationInput = 0
    ∧ min ((negDonationInput.charityDonations).getD 0)
        (max 0 (grossIncomeOf negDonationInput -
          baseDeductionsOf emptyCat 5 negDonationInput)) = -1
    ∧ charityDeductionOf emptyCat 5 negDonationInput
        ≠ min ((negDonationInput.charityDonations).getD 0)
            (max 0 (grossIncomeOf negDonationInput -
              baseDeductionsOf emptyCat 5 negDonationInput)) := by
  norm_num [charityDeductionOf, grossIncomeOf, baseDeductionsOf,
    residentTaxpayerDeduction, residentDependentDeduction, getConstant,
    emptyCat, negDonationInput]

/-- C4 amended. In `calculateResidentPIT` the charitable deduction equals
the lesser of the donation amount clamped to non-negative and
`max(0, grossIncome - baseDeductions)`; assessable income is
`max(0, grossIncome - baseDeductions - charityDeduction)`; hence the
donation never exceeds the deduction room actually available and
assessable income is never negative. -/
theorem claim4_charity_capped (cat : RulesCatalog) (date : DateIdx)
    (input : PITInput) :
    charityDeductionOf cat date input
      = min (max 0 (input.charityDonations.getD 0))
          (max 0 (grossIncomeOf input - baseDeductionsOf cat date input))
    ∧ assessableIncomeOf cat date input
      = max 0 (grossIncomeOf input - baseDeductionsOf cat date input
          - charityDeductionOf cat date input)
    ∧ charityDeductionOf cat date input
        ≤ max 0 (grossIncomeOf input - baseDeductionsOf cat date input)
    ∧ 0 ≤ assessableIncomeOf cat date input := by
  refine ⟨rfl, ?_, ?_, ?_⟩
  · rw [assessableIncomeOf]
    congr 1
    ring
  · rw [charityDeductionOf]
    exact min_le_right _ _
  · rw [assessableIncomeOf]
    exact le_max_left 0 _

-- ==================== GROSS/NET SUCCESS LEMMAS ====================

/-- With a resident table present, `calculateResidentPIT` succeeds. -/
theorem calculateResidentPIT_isOk (cat : RulesCatalog) (input : PITInput)
    (date : DateIdx) (tbl : TaxTable)
    (h : getTaxTableByScope cat .resident_employment_income date = some tbl) :
    ∃ r, calculateResidentPIT cat input date = .ok r := by
  rw [calculateResidentPIT, h]
  exact ⟨_, rfl⟩

/-- The PIT dispatcher succeeds for non-residents, and for residents
whenever the resident table resolves. -/
theorem calculatePIT_isOk (cat : RulesCatalog) (input : PITInput) (date : DateIdx)
    (h : input.residencyStatus = .non_resident ∨
      getTaxTableByScope cat .resident_employment_income date ≠ none) :
    ∃ r, calculatePIT cat input date = .ok r := by
  cases hs : input.residencyStatus with
  | non_resident =>
    refine ⟨calculateNonResidentPIT cat input date, ?_⟩
    rw [calculatePIT, hs]
  | resident =>
    rcases h with h | h
    · rw [hs] at h; cases h
    · obtain ⟨tbl, htbl⟩ := Option.ne_none_iff_exists'.mp h
      obtain ⟨r, hr⟩ := calculateResidentPIT_isOk cat input date tbl htbl
      refine ⟨r, ?_⟩
      rw [calculatePIT, hs]
      exact hr

/-- `grossToNet` succeeds on the fixed-10% path, the non-resident path,
and the resident path with a resolvable resident table. -/
theorem grossToNet_isOk (cat : RulesCatalog) (date : DateIdx)
    (input : GrossToNetInput)
    (h : truthyBool input.useFixed10Percent = true ∨
      input.residencyStatus = .non_resident ∨
      getTaxTableByScope cat .resident_employment_income date ≠ none) :
    ∃ r, grossToNet cat date input = .ok r := by
  have hpit : ∃ pit, grossToNetPitE cat date input = .ok pit := by
    by_cases hf : truthyBool input.useFixed10Percent = true
    · exact ⟨_, by rw [grossToNetPitE, if_pos hf]⟩
    · have h2 : input.residencyStatus = .non_resident ∨
          getTaxTableByScope cat .resident_employment_income date ≠ none := by
        rcases h with h | h
        · exact absurd h hf
        · exact h
      obtain ⟨p, hp⟩ := calculatePIT_isOk cat
        { residencyStatus := input.residencyStatus
          grossSalary := input.grossSalary
          taxableAllowances := 0
          dependentsCount := input.dependentsCount
          insuranceContributions := (grossToNetInsurance input).employee.total
          charityDonations := none } date h2
      exact ⟨p.monthlyPIT, by rw [grossToNetPitE, if_neg hf, hp]; rfl⟩
  obtain ⟨pit, hp⟩ := hpit
  exact ⟨_, by rw [grossToNet, hp]⟩

-- ==================== BISECTION LEMMAS ====================

/-- Any successful run of the bisection loop consumes at most the given
fuel, satisfies the 1,000 VND tolerance whenever it stopped before the
budget was exhausted, and returns a value of `grossToNet` at some integer
midpoint. -/
theorem netToGrossGo_spec (cat : RulesCatalog) (date : DateIdx)
    (i : NetToGrossInput) (target : ℚ) :
    ∀ (fuel : Nat) (low high : ℚ) (iters : Nat) (r : GrossToNetResult) (n : Nat),
      netToGrossGo cat date i target fuel low high iters = .ok (r, n) →
      n ≤ iters + fuel
      ∧ (n < iters + fuel → |r.net - target| < 1000)
      ∧ ∃ m : ℤ, grossToNet cat date (withGross i (m : ℚ)) = .ok r := by
  intro fuel
  induction fuel with
  | zero =>
    intro low high iters r n h
    rw [netToGrossGo] at h
    cases hg : grossToNet cat date (withGross i ((⌊(low + high) / 2⌋ : ℤ) : ℚ)) with
    | error e => rw [hg] at h; exact absurd h (by simp [Except.map])
    | ok r2 =>
      rw [hg] at h
      simp only [Except.map, Except.ok.injEq, Prod.mk.injEq] at h
      obtain ⟨rfl, rfl⟩ := h
      exact ⟨by omega, fun hlt => absurd hlt (by omega),
        ⟨⌊(low + high) / 2⌋, hg⟩⟩
  | succ fuel ih =>
    intro low high iters r n h
    simp only [netToGrossGo] at h
    cases hg : grossToNet cat date (withGross i ((⌊(low + high) / 2⌋ : ℤ) : ℚ)) with
    | error e => rw [hg] at h; exact absurd h (by simp)
    | ok result =>
      rw [hg] at h
      replace h : (if |result.net - target| < 1000 then
            (Except.ok (result, iters + 1) : Except String (GrossToNetResult × Nat))
          else if result.net < target then
            netToGrossGo cat date i target fuel
              ((⌊(low + high) / 2⌋ : ℤ) : ℚ) high (iters + 1)
          else
            netToGrossGo cat date i target fuel
              low ((⌊(low + high) / 2⌋ : ℤ) : ℚ) (iters + 1))
          = Except.ok (r, n) := h
      by_cases ht : |result.net - target| < 1000
      · rw [if_pos ht] at h
        simp only [Except.ok.injEq, Prod.mk.injEq] at h
        obtain ⟨rfl, rfl⟩ := h
        exact ⟨by omega, fun _ => ht, ⟨⌊(low + high) / 2⌋, hg⟩⟩
      · rw [if_neg ht] at h
        by_cases hlt : result.net < target
        · rw [if_pos hlt] at h
          obtain ⟨h1, h2, h3⟩ := ih _ _ _ _ _ h
          exact ⟨by omega, fun hb => h2 (by omega), h3⟩
        · rw [if_neg hlt] at h
          obtain ⟨h1, h2, h3⟩ := ih _ _ _ _ _ h
          exact ⟨by omega, fun hb => h2 (by omega), h3⟩

/-- When `grossToNet` succeeds at every candidate gross, the bisection
loop always returns a successful result. -/
theorem netToGrossGo_isOk (cat : RulesCatalog) (date : DateIdx)
    (i : NetToGrossInput) (target : ℚ)
    (hok : ∀ g : ℚ, ∃ r, grossToNet cat date (withGross i g) = .ok r) :
    ∀ (fuel : Nat) (low high : ℚ) (iters : Nat),
      ∃ r n, netToGrossGo cat date i target fuel low high iters = .ok (r, n) := by
  intro fuel
  induction fuel with
  | zero =>
    intro low high iters
    obtain ⟨r, hr⟩ := hok ((⌊(low + high) / 2⌋ : ℤ) : ℚ)
    exact ⟨r, iters, by rw [netToGrossGo, hr]; rfl⟩
  | succ fuel ih =>
    intro low high iters
    obtain ⟨r, hr⟩ := hok ((⌊(low + high) / 2⌋ : ℤ) : ℚ)
    have hred : ∀ out : Except String (GrossToNetResult × Nat),
        (if |r.net - target| < 1000 then
            (Except.ok (r, iters + 1) : Except String (GrossToNetResult × Nat))
          else if r.net < target then
            netToGrossGo cat date i target fuel
              ((⌊(low + high) / 2⌋ : ℤ) : ℚ) high (iters + 1)
          else
            netToGrossGo cat date i target fuel
              low ((⌊(low + high) / 2⌋ : ℤ) : ℚ) (iters + 1)) = out →
        netToGrossGo cat date i target (fuel + 1) low high iters = out := by
      intro out hfork
      simp only [netToGrossGo]
      rw [hr]
      exact hfork
    by_cases ht : |r.net - target| < 1000
    · exact ⟨r, iters + 1, hred _ (if_pos ht)⟩
    · by_cases hlt : r.net < target
      · obtain ⟨r2, n2, h2⟩ := ih ((⌊(low + high) / 2⌋ : ℤ) : ℚ) high (iters + 1)
        exact ⟨r2, n2, hred _ (by rw [if_neg ht, if_pos hlt]; exact h2)⟩
      · obtain ⟨r2, n2, h2⟩ := ih low ((⌊(low + high) / 2⌋ : ℤ) : ℚ) (iters + 1)
        exact ⟨r2, n2, hred _ (by rw [if_neg ht, if_neg hlt]; exact h2)⟩

-- ==================== CLAIM C8 ====================

/-- C8. Whenever the forward conversion cannot fail (fixed-10% path,
non-resident, or a resolvable resident table — otherwise the missing
tax-table error of the underlying calculator propagates), `netToGross`
terminates with a successful result: the bisection (starting from
`low = target`, `high = 2 × target`, integer-floor midpoints) runs at
most 50 iterations, any return before the budget is exhausted satisfies
`|net - target| < 1000` VND, and the returned estimate — budget exhausted
or not — is the value of `grossToNet` at an integer midpoint, with the
iteration count reported and never exceeding 50. -/
theorem claim8_netToGross_bounded (cat : RulesCatalog) (date : DateIdx)
    (i : NetToGrossInput)
    (hpath : truthyBool i.useFixed10Percent = true ∨
      i.residencyStatus = .non_resident ∨
      getTaxTableByScope cat .resident_employment_income date ≠ none) :
    ∃ r n, netToGross cat date i = .ok (r, n)
      ∧ n ≤ 50
      ∧ (n < 50 → |r.net - i.netSalary| < 1000)
      ∧ ∃ m : ℤ, grossToNet cat date (withGross i (m : ℚ)) = .ok r := by
  have hok : ∀ g : ℚ, ∃ r, grossToNet cat date (withGross i g) = .ok r :=
    fun g => grossToNet_isOk cat date (withGross i g) hpath
  obtain ⟨r, n, h⟩ := netToGrossGo_isOk cat date i i.netSalary hok
    50 i.netSalary (i.netSalary * 2) 0
  obtain ⟨h1, h2, h3⟩ := netToGrossGo_spec cat date i i.netSalary
    50 i.netSalary (i.netSalary * 2) 0 r n h
  exact ⟨r, n, by rw [netToGross]; exact h, by omega, fun hn => h2 (by omega), h3⟩

/-- Witness for C8: on the 2026 fixture catalog the resident table
resolves, so the bisection for a 25,000,000 VND net target succeeds
within the budget. -/
theorem claim8_netToGross_bounded_witness :
    ∃ r n, netToGross vnCat2026 5 ⟨25000000, .resident, 0, .zone1, none, none⟩
        = .ok (r, n)
      ∧ n ≤ 50
      ∧ (n < 50 → |r.net - (25000000:ℚ)| < 1000)
      ∧ ∃ m : ℤ, grossToNet vnCat2026 5
          (withGross ⟨25000000, .resident, 0, .zone1, none, none⟩ (m : ℚ)) = .ok r := by
  exact claim8_netToGross_bounded vnCat2026 5
    ⟨25000000, .resident, 0, .zone1, none, none⟩
    (Or.inr (Or.inr (by simp [getTaxTableByScope, vnCat2026, vnResidentTable2026,
      isActiveOn, List.find?])))

/-- The dispatcher on a non-resident input. -/
theorem calculatePIT_nonresident (cat : RulesCatalog) (input : PITInput)
    (date : DateIdx) (h : input.residencyStatus = .non_resident) :
    calculatePIT cat input date = .ok (calculateNonResidentPIT cat input date) := by
  rw [calculatePIT, h]

/-- The dispatcher on a resident input. -/
theorem calculatePIT_resident (cat : RulesCatalog) (input : PITInput)
    (date : DateIdx) (h : input.residencyStatus = .resident) :
    calculatePIT cat input date = calculateResidentPIT cat input date := by
  rw [calculatePIT, h]

-- ==================== ZERO-SALARY LEMMAS ====================

/-- A zero gross salary yields zero employee insurance contributions
(the capped bases are `min 0 cap = 0`). -/
theorem calculateInsurance_employee_total_zero (z : SalaryZone) (e : Option Bool) :
    (calculateInsurance { grossSalary := 0, zone := z, isExpat := e }).employee.total
      = 0 := by
  have h1 : min (0:ℚ) (BASIC_WAGE_2026 * 20) = 0 := by
    rw [BASIC_WAGE_2026]; norm_num
  have h2 : min (0:ℚ) (MINIMUM_WAGES_2026 z * 20) = 0 := by
    cases z <;> norm_num [MINIMUM_WAGES_2026]
  simp only [calculateInsurance, h1, h2, zero_mul]
  cases truthyBool e <;> simp

/-- With zero gross income, zero allowances and zero insurance input, and
non-negative resolved deductions, the assessable income is zero. -/
theorem assessableIncomeOf_eq_zero (cat : RulesCatalog) (date : DateIdx)
    (input : PITInput)
    (hg : input.grossSalary = 0) (ha : input.taxableAllowances = 0)
    (hins : input.insuranceContributions = 0)
    (htd : 0 ≤ residentTaxpayerDeduction cat date)
    (hdep : 0 ≤ input.dependentsCount * residentDependentDeduction cat date) :
    assessableIncomeOf cat date input = 0 := by
  have hgi : grossIncomeOf input = 0 := by rw [grossIncomeOf, hg, ha]; ring
  have hbase : 0 ≤ baseDeductionsOf cat date input := by
    rw [baseDeductionsOf, hins]
    linarith
  have hch : 0 ≤ charityDeductionOf cat date input := by
    rw [charityDeductionOf]
    exact le_min (le_max_left 0 _) (le_max_left 0 _)
  rw [assessableIncomeOf, hgi]
  apply max_eq_left
  linarith

/-- With a resolvable table and zero assessable income, the resident
calculator succeeds with zero monthly PIT. -/
theorem calculateResidentPIT_zero_assessable (cat : RulesCatalog) (date : DateIdx)
    (input : PITInput) (tbl : TaxTable)
    (htab : getTaxTableByScope cat .resident_employment_income date = some tbl)
    (hassess : assessableIncomeOf cat date input = 0) :
    ∃ r, calculateResidentPIT cat input date = .ok r ∧ r.monthlyPIT = 0 := by
  rw [calculateResidentPIT, htab]
  refine ⟨_, rfl, ?_⟩
  show (calculateProgressiveTax (assessableIncomeOf cat date input) tbl).1 = 0
  rw [hassess, calculateProgressiveTax, progressiveSteps_of_nonpos _ _ le_rfl]

-- ==================== CLAIM C9 ====================

/-- C9. `grossToNet` computes `effectiveRate` as the unguarded quotient
`pit / grossSalary`: whenever it succeeds the effective rate is the
JavaScript division of the returned pit by the input gross, and at
`grossSalary = 0` (on any path whose PIT step succeeds, with non-negative
resolved deductions) the returned pit and net are 0 while the effective
rate is the undefined quotient 0/0, i.e. NaN — unlike
`calculateResidentPIT`, whose successful results carry effective rate 0
whenever the gross income is 0. -/
theorem claim9_grossToNet_nan_at_zero (cat : RulesCatalog) (date : DateIdx)
    (input : GrossToNetInput)
    (hpath : truthyBool input.useFixed10Percent = true ∨
      input.residencyStatus = .non_resident ∨
      getTaxTableByScope cat .resident_employment_income date ≠ none)
    (htd : 0 ≤ residentTaxpayerDeduction cat date)
    (hdep : 0 ≤ input.dependentsCount * residentDependentDeduction cat date)
    (h0 : input.grossSalary = 0) :
    (∀ (inp : GrossToNetInput) (r : GrossToNetResult),
      grossToNet cat date inp = .ok r →
      r.effectiveRate = jsDiv r.pit inp.grossSalary)
    ∧ (∃ r, grossToNet cat date input = .ok r
        ∧ r.effectiveRate = .nan ∧ r.pit = 0 ∧ r.net = 0)
    ∧ (∀ (i2 : PITInput) (r2 : PITResult),
        calculateResidentPIT cat i2 date = .ok r2 →
        grossIncomeOf i2 = 0 → r2.effectiveRate = 0) := by
  have hins : (grossToNetInsurance input).employee.total = 0 := by
    have he : grossToNetInsurance input
        = calculateInsurance
            { grossSalary := 0, zone := input.zone, isExpat := input.isExpat } := by
      rw [grossToNetInsurance, h0]
    rw [he, calculateInsurance_employee_total_zero]
  refine ⟨?_, ?_, ?_⟩
  · intro inp r h
    rw [grossToNet] at h
    cases hp : grossToNetPitE cat date inp with
    | error e => rw [hp] at h; exact absurd h (by simp)
    | ok pit =>
      rw [hp] at h
      simp only [Except.ok.injEq] at h
      subst h
      rfl
  · have hpit0 : grossToNetPitE cat date input = .ok 0 := by
      by_cases hf : truthyBool input.useFixed10Percent = true
      · rw [grossToNetPitE, if_pos hf, h0]
        norm_num
      · rw [grossToNetPitE, if_neg hf]
        have hnonres : input.residencyStatus = .non_resident →
            (calculatePIT cat
              { residencyStatus := input.residencyStatus
                grossSalary := input.grossSalary
                taxableAllowances := 0
                dependentsCount := input.dependentsCount
                insuranceContributions := (grossToNetInsurance input).employee.total
                charityDonations := none } date).map (·.monthlyPIT)
              = Except.ok 0 := by
          intro hrs
          rw [calculatePIT_nonresident cat _ date hrs]
          show Except.ok ((input.grossSalary + 0) * nonResidentRate cat date)
            = Except.ok 0
          rw [h0]
          norm_num
        rcases hpath with hp | hp | hp
        · exact absurd hp hf
        · exact hnonres hp
        · cases hrs : input.residencyStatus with
          | non_resident =>
            rw [calculatePIT_nonresident cat _ date rfl]
            show Except.ok ((input.grossSalary + 0) * nonResidentRate cat date)
              = Except.ok 0
            rw [h0]
            norm_num
          | resident =>
            obtain ⟨tbl, htbl⟩ := Option.ne_none_iff_exists'.mp hp
            obtain ⟨r, hr, hr0⟩ := calculateResidentPIT_zero_assessable cat date
              { residencyStatus := .resident
                grossSalary := input.grossSalary
                taxableAllowances := 0
                dependentsCount := input.dependentsCount
                insuranceContributions := (grossToNetInsurance input).employee.total
                charityDonations := none } tbl htbl
              (assessableIncomeOf_eq_zero cat date _ h0 rfl hins htd hdep)
            rw [calculatePIT_resident cat _ date rfl, hr]
            show Except.ok r.monthlyPIT = Except.ok 0
            rw [hr0]
    refine ⟨mkGrossToNetResult input 0, by rw [grossToNet, hpit0], ?_, rfl, ?_⟩
    · show jsDiv 0 input.grossSalary = .nan
      rw [h0, jsDiv]
      norm_num
    · show input.grossSalary - (grossToNetInsurance input).employee.total - 0 = 0
      rw [h0, hins]
      ring
  · intro i2 r2 h hgi
    rw [calculateResidentPIT] at h
    cases htab : getTaxTableByScope cat .resident_employment_income date with
    | none => rw [htab] at h; exact absurd h (by simp)
    | some tbl =>
      rw [htab] at h
      simp only [Except.ok.injEq] at h
      subst h
      show (if 0 < grossIncomeOf i2 then _ else 0) = 0
      rw [hgi]
      norm_num

/-- Witness for C9: on the 2026 fixture catalog, a resident gross salary
of 0 gives pit 0, net 0 and a NaN effective rate. -/
theorem claim9_grossToNet_nan_at_zero_witness :
    ∃ r, grossToNet vnCat2026 5 ⟨0, .resident, 0, .zone1, none, none⟩ = .ok r
      ∧ r.effectiveRate = .nan ∧ r.pit = 0 ∧ r.net = 0 := by
  exact (claim9_grossToNet_nan_at_zero vnCat2026 5
    ⟨0, .resident, 0, .zone1, none, none⟩
    (Or.inr (Or.inr (by simp [getTaxTableByScope, vnCat2026, vnResidentTable2026,
      isActiveOn, List.find?])))
    (by norm_num [residentTaxpayerDeduction, getConstant, vnCat2026, isActiveOn])
    (by norm_num [residentDependentDeduction, getConstant, vnCat2026, isActiveOn])
    rfl).2.1

end VnPit
